import Mathlib

/-!
Shallow embedding of the batched AI query demo (`krishna_ai_query_demo.py`) and of
the Cloudflare worker client (`examples/lightrag_hf_cloudflare_dataset_demo.py`).

Numbers: Python floats are modelled as exact rationals (`ℚ`); the only square root
(the population standard deviation) is modelled through `Real.sqrt`.  Wall-clock
time is modelled by an external stream `elapsedMs : ℕ → ℚ` giving, for the k-th
responder call of a run, the elapsed milliseconds measured by the two
`time.perf_counter()` readings around that call; the demonstrator state carries the
call counter (`clock`).  Exceptions are modelled explicitly: the remote responder
either returns a string, raises, or returns Python `None`.
-/

namespace KrishnaDemo

/-- Outcome of one call `await self.cloudflare_worker.query(question, system_prompt)`:
the call returns a string, raises an exception carrying a message, or returns
Python `None` (the real `CloudflareWorker.query` returns `None` on any API error). -/
inductive RespOutcome where
  | ok (response : String)
  | raise (msg : String)
  | retNone
deriving DecidableEq

/-- The remote responder capability: a deterministic outcome per prompt. -/
abbrev Responder := String → RespOutcome

/-- Python `len(s.split())`: number of maximal whitespace-free words of `s`
(`str.split()` with no argument drops empty fields). -/
def tokenCount (s : String) : ℕ :=
  ((s.split fun c => c.isWhitespace).filter fun w => w ≠ "").length

/-- An ASCII single-quote character, as a one-character string. -/
def pyQuote : String := String.singleton (Char.ofNat 39)

/-- The message of the `AttributeError` raised by `None.split()` at line 230 of
`krishna_ai_query_demo.py` when the responder returned `None`. -/
def noneSplitMsg : String :=
  pyQuote ++ "NoneType" ++ pyQuote ++ " object has no attribute " ++
    pyQuote ++ "split" ++ pyQuote

/-- One entry of `self.results` (lines 303-308): the stored record keeps the
answer's length, not the answer itself. -/
structure QueryRecord where
  question_number : ℕ
  question : String
  response_time : ℚ
  answer_length : ℕ
deriving DecidableEq

/-- One entry of the returned `formatted_results` list.  `format_result`
(lines 241-248) interpolates exactly these four values into a fixed template
string; the embedding keeps them as fields. -/
structure FormattedResult where
  question_number : ℕ
  question : String
  response_time : ℚ
  answer : String
deriving DecidableEq

/-- The mutable fields of `KrishnaQueryDemonstrator` touched by
`query_krishna_topic` and `run_queries_batch`, plus the clock position
(number of responder calls made so far). -/
structure DemoState where
  results : List QueryRecord
  response_times : List ℚ
  connectivity_issues : ℕ
  successful_queries : ℕ
  total_tokens_estimated : ℕ
  clock : ℕ
deriving DecidableEq

/-- The state right after `KrishnaQueryDemonstrator.__init__`. -/
def initState : DemoState :=
  { results := [], response_times := [], connectivity_issues := 0,
    successful_queries := 0, total_tokens_estimated := 0, clock := 0 }

/-- `KrishnaQueryDemonstrator.query_krishna_topic` (lines 195-239).
`elapsedMs st.clock` is the elapsed time the two `perf_counter` readings measure
around this responder call, already in milliseconds.
* responder returns `resp`: `successful_queries += 1`, the elapsed time is
  appended to `response_times`, tokens are estimated, and `(resp, rt)` returned;
* responder raises `msg`: the inner handler (lines 214-217) runs
  `connectivity_issues += 1` and sets `response = "Connection Error: " + msg`;
  the code then falls through to the same timing/recording lines, so the
  measured elapsed time is appended and returned (not 0.0);
* responder returns `None`: line 213 runs `successful_queries += 1`, the elapsed
  time is appended at line 227, then line 230 (`response.split()`) raises
  `AttributeError`, caught by the outer handler (lines 236-239), which runs
  `connectivity_issues += 1` and returns `("Error: " + msg, 0.0)`; the token
  estimate is never updated on this path. -/
def query_krishna_topic (responder : Responder) (elapsedMs : ℕ → ℚ)
    (st : DemoState) (question : String) (_question_number : ℕ) :
    DemoState × String × ℚ :=
  let rt := elapsedMs st.clock
  match responder question with
  | .ok resp =>
      ({ st with
          successful_queries := st.successful_queries + 1
          response_times := st.response_times ++ [rt]
          total_tokens_estimated :=
            st.total_tokens_estimated + (tokenCount question + tokenCount resp)
          clock := st.clock + 1 },
        resp, rt)
  | .raise msg =>
      ({ st with
          connectivity_issues := st.connectivity_issues + 1
          response_times := st.response_times ++ [rt]
          total_tokens_estimated :=
            st.total_tokens_estimated +
              (tokenCount question + tokenCount ("Connection Error: " ++ msg))
          clock := st.clock + 1 },
        "Connection Error: " ++ msg, rt)
  | .retNone =>
      ({ st with
          successful_queries := st.successful_queries + 1
          connectivity_issues := st.connectivity_issues + 1
          response_times := st.response_times ++ [rt]
          clock := st.clock + 1 },
        "Error: " ++ noneSplitMsg, 0)

/-- The chunking performed by `for batch_start in range(0, total_questions,
batch_size)` with `questions[batch_start:batch_end]` (lines 291-293): contiguous
chunks of at most `batch_size` items, in order.  (Python raises on step 0, so
only `batch_size ≥ 1` is meaningful; the `batch_size = 0` value of this
function is never relied upon.) -/
def chunks (batch_size : ℕ) : List α → List (List α)
  | [] => []
  | q :: qs =>
      (q :: qs.take (batch_size - 1)) :: chunks batch_size (qs.drop (batch_size - 1))
termination_by l => l.length
decreasing_by simp only [List.length_drop, List.length_cons]; omega

/-- The inner item loop `for i, question in enumerate(batch_questions,
batch_start + 1)` (lines 298-316): query, store the record into `self.results`,
append the formatted result.  The rate-limiting sleep has no effect on any
recorded value.  `i` is the 1-based number of the first item. -/
def processItems (responder : Responder) (elapsedMs : ℕ → ℚ) :
    DemoState → List String → ℕ → DemoState × List FormattedResult
  | st, [], _ => (st, [])
  | st, q :: qs, i =>
      let r := query_krishna_topic responder elapsedMs st q i
      let st2 := { r.1 with
        results := r.1.results ++ [⟨i, q, r.2.2, r.2.1.length⟩] }
      let rest := processItems responder elapsedMs st2 qs (i + 1)
      (rest.1, ⟨i, q, r.2.2, r.2.1⟩ :: rest.2)

/-- The outer chunk loop (lines 291-320): runs `processItems` chunk after chunk;
the per-chunk progress logging has no effect on any recorded value. -/
def runChunks (responder : Responder) (elapsedMs : ℕ → ℚ) :
    DemoState → List (List String) → ℕ → DemoState × List FormattedResult
  | st, [], _ => (st, [])
  | st, c :: cs, i =>
      let r := processItems responder elapsedMs st c i
      let rest := runChunks responder elapsedMs r.1 cs (i + c.length)
      (rest.1, r.2 ++ rest.2)

/-- `KrishnaQueryDemonstrator.run_queries_batch` (lines 284-323): chunk the
questions, process every chunk in order, return the accumulated formatted
results.  The `delay` parameter only feeds `asyncio.sleep` and affects no
recorded value. -/
def run_queries_batch (responder : Responder) (elapsedMs : ℕ → ℚ)
    (st : DemoState) (questions : List String) (_delay : ℚ) (batch_size : ℕ) :
    DemoState × List FormattedResult :=
  runChunks responder elapsedMs st (chunks batch_size questions) 1

/-- Python `min(times)` for a nonempty list (default 0 is never used by the code,
which guards nonemptiness). -/
def listMin : List ℚ → ℚ
  | [] => 0
  | x :: xs => xs.foldl min x

/-- Python `max(times)` for a nonempty list. -/
def listMax : List ℚ → ℚ
  | [] => 0
  | x :: xs => xs.foldl max x

/-- The index `int(len(times) * 0.95)` of line 338, in exact arithmetic. -/
def p95Index (n : ℕ) : ℕ := (⌊(n : ℚ) * (95 / 100)⌋).toNat

/-- The index `int(len(times) * 0.99)` of line 339, in exact arithmetic. -/
def p99Index (n : ℕ) : ℕ := (⌊(n : ℚ) * (99 / 100)⌋).toNat

/-- The fields of the dict returned by `analyze_latency_patterns` (lines 334-342).
The standard deviation `(...)**0.5` is kept as its exact radicand
`std_deviation_sq` (the population variance, a rational); the real-valued root
itself is exposed by `LatencyAnalysis.std_deviation` below. -/
structure LatencyAnalysis where
  min_latency : ℚ
  max_latency : ℚ
  median_latency : ℚ
  p95_latency : ℚ
  p99_latency : ℚ
  std_deviation_sq : ℚ
  consistency_score : ℚ
deriving DecidableEq

/-- The value `'std_deviation'` of the returned dict: the square root of the
population variance. -/
noncomputable def LatencyAnalysis.std_deviation (a : LatencyAnalysis) : ℝ :=
  Real.sqrt (a.std_deviation_sq : ℝ)

/-- `KrishnaQueryDemonstrator.analyze_latency_patterns` (lines 325-343).
The two early returns of `{}` (empty `response_times`, or all entries filtered
out by `t > 0`) are both the `none` case, since filtering an empty list gives an
empty list.  `sorted(times)[k]` is modelled as the ascending insertion sort of
`times` indexed at `k` (with an irrelevant default, shown in bounds separately). -/
def analyze_latency_patterns (response_times : List ℚ) : Option LatencyAnalysis :=
  let times := response_times.filter fun t => 0 < t
  if times = [] then none
  else
    let n : ℕ := times.length
    let srt := times.insertionSort (· ≤ ·)
    let mean : ℚ := times.sum / (n : ℚ)
    some {
      min_latency := listMin times
      max_latency := listMax times
      median_latency := srt.getD (n / 2) 0
      p95_latency := srt.getD (p95Index n) 0
      p99_latency := srt.getD (p99Index n) 0
      std_deviation_sq := (times.map fun t => (t - mean) ^ 2).sum / (n : ℚ)
      consistency_score :=
        1 - (listMax times - listMin times) / times.sum * (n : ℚ) }

/-- The latency-independent projection of a formatted result: ordinal index,
prompt, and response text (which also determines the success/failure branch the
item took, since every failure response is a synthetic error string). -/
def stripLatency (fr : FormattedResult) : ℕ × String × String :=
  (fr.question_number, fr.question, fr.answer)

end KrishnaDemo

namespace CloudflareWorker

/-- A Python value, as far as the Cloudflare response handling inspects one. -/
inductive PyVal where
  | dict (fields : List (String × PyVal))
  | str (s : String)
  | pylist (elems : List PyVal)
  | num (q : ℚ)
  | pynone

/-- Python `v.get(key, dflt)`: raises `AttributeError` unless `v` is a dict. -/
def pyGetDefault (v : PyVal) (key : String) (dflt : PyVal) : Except String PyVal :=
  match v with
  | .dict fields =>
      .ok (match fields.lookup key with | some x => x | none => dflt)
  | _ => .error "AttributeError"

/-- Python `key in v` for a string `key`: key test on dicts, substring test on
strings, membership test on lists; raises `TypeError` otherwise. -/
def pyContains (v : PyVal) (key : String) : Except String Bool :=
  match v with
  | .dict fields => .ok (fields.any fun kv => kv.1 = key)
  | .str s => .ok ((s.splitOn key).length ≠ 1)
  | .pylist elems =>
      .ok (elems.any fun e => match e with | .str s => s = key | _ => false)
  | _ => .error "TypeError"

/-- Python `v[key]` for a string `key`: dict subscription (raising `KeyError`
on a missing key); any other shape raises `TypeError`. -/
def pySubscript (v : PyVal) (key : String) : Except String PyVal :=
  match v with
  | .dict fields =>
      match fields.lookup key with
      | some x => .ok x
      | none => .error "KeyError"
  | _ => .error "TypeError"

/-- Outcome of `requests.post(...).json()` (line 64): either some exception
(connection error, HTTP-level failure, JSON decode error, ...) or a decoded
Python value. -/
inductive NetOutcome where
  | raises (msg : String)
  | json (v : PyVal)

/-- A normal return value of `_send_request`: `np.array(result["data"])` for the
embedding case, or `result["response"]` for the LLM case. -/
inductive SendResult where
  | embedding (v : PyVal)
  | response (v : PyVal)

/-- The `try:` body of `_send_request` (lines 64-78): every raise point is an
`Except.error`.  After the POST/JSON step, `result = response_raw.get("result", {})`;
if `"data" in result` return the embedding array; if `"response" in result`
return the response; otherwise raise `ValueError("Unexpected Cloudflare
response format")`. -/
def sendRequestBody (net : NetOutcome) : Except String SendResult := do
  match net with
  | .raises msg => .error msg
  | .json response_raw =>
      let result ← pyGetDefault response_raw "result" (.dict [])
      if ← pyContains result "data" then
        return .embedding (← pySubscript result "data")
      else if ← pyContains result "response" then
        return .response (← pySubscript result "response")
      else
        .error "Unexpected Cloudflare response format"

/-- `CloudflareWorker._send_request` (lines 58-81).  The result type
`Except String (Option SendResult)` makes a raised-to-the-caller exception
representable as `Except.error`; the catch-all `except Exception` handler
(lines 79-81) logs and returns `None`, so the translation wraps every outcome
of the body in `Except.ok`. -/
def _send_request (net : NetOutcome) : Except String (Option SendResult) :=
  match sendRequestBody net with
  | .ok r => .ok (some r)
  | .error _ => .ok none

/-- `CloudflareWorker.query` (lines 83-102): builds the message list and input
dict (no failure points) and returns `_send_request` on the LLM model; the
network outcome of that single POST is the parameter. -/
def query (net : NetOutcome) : Except String (Option SendResult) :=
  _send_request net

end CloudflareWorker

namespace KrishnaDemo

-- The batch loop produces one formatted result per question.
theorem processItems_length (responder : Responder) (e : ℕ → ℚ) (qs : List String) :
    ∀ (st : DemoState) (i : ℕ),
      ((processItems responder e st qs i).2).length = qs.length := by
  induction qs with
  | nil => intro st i; rfl
  | cons q qs ih => intro st i; simp [processItems, ih]

-- Processing a concatenation processes the first part, then the second from
-- the resulting state, numbering the second part after the first.
theorem processItems_append (responder : Responder) (e : ℕ → ℚ) (a b : List String) :
    ∀ (st : DemoState) (i : ℕ),
      processItems responder e st (a ++ b) i =
        ((processItems responder e (processItems responder e st a i).1 b
            (i + a.length)).1,
          (processItems responder e st a i).2 ++
            (processItems responder e (processItems responder e st a i).1 b
              (i + a.length)).2) := by
  induction a with
  | nil => intro st i; simp [processItems]
  | cons q a ih =>
      intro st i
      have h : i + (a.length + 1) = i + 1 + a.length := by omega
      simp only [List.cons_append, processItems, List.length_cons, h, ih]
      simp [ih]

-- Running the chunked loop over the chunks of a question list is the same as
-- processing the questions in one pass: chunking only regroups the iteration.
theorem runChunks_chunks (responder : Responder) (e : ℕ → ℚ) (bs : ℕ) :
    ∀ (n : ℕ) (l : List String), l.length ≤ n → ∀ (st : DemoState) (i : ℕ),
      runChunks responder e st (chunks bs l) i = processItems responder e st l i := by
  intro n
  induction n with
  | zero =>
      intro l hl st i
      have hnil : l = [] := List.eq_nil_of_length_eq_zero (Nat.le_zero.mp hl)
      subst hnil
      simp [chunks, runChunks, processItems]
  | succ n ih =>
      intro l hl st i
      match l with
      | [] => simp [chunks, runChunks, processItems]
      | q :: qs =>
          rw [chunks, runChunks]
          have hsplit : q :: qs = (q :: qs.take (bs - 1)) ++ qs.drop (bs - 1) := by
            simp [List.take_append_drop]
          conv_rhs => rw [hsplit]
          rw [processItems_append]
          have hlen : (qs.drop (bs - 1)).length ≤ n := by
            simp only [List.length_drop]
            simp only [List.length_cons] at hl
            omega
          rw [ih _ hlen]

-- The whole batch entry point, for any chunk size, is one sequential pass.
theorem run_queries_batch_eq_processItems (responder : Responder) (e : ℕ → ℚ)
    (st : DemoState) (qs : List String) (delay : ℚ) (bs : ℕ) :
    run_queries_batch responder e st qs delay bs = processItems responder e st qs 1 :=
  runChunks_chunks responder e bs qs.length qs (Nat.le_refl _) st 1

-- The ordinal indices of the formatted results are consecutive from the start
-- number, and the prompts appear in submission order.
theorem processItems_numbers (responder : Responder) (e : ℕ → ℚ) (qs : List String) :
    ∀ (st : DemoState) (i : ℕ),
      ((processItems responder e st qs i).2).map (fun fr => fr.question_number) =
        List.range' i qs.length ∧
      ((processItems responder e st qs i).2).map (fun fr => fr.question) = qs := by
  induction qs with
  | nil => intro st i; simp [processItems]
  | cons q qs ih =>
      intro st i
      simp [processItems, List.range'_succ, ih]

-- `min` of a list through `foldl`, as the Python builtin computes it.
theorem foldl_min_le_init (xs : List ℚ) : ∀ a : ℚ, xs.foldl min a ≤ a := by
  induction xs with
  | nil => intro a; simp
  | cons x xs ih =>
      intro a
      calc (x :: xs).foldl min a = xs.foldl min (min a x) := by simp
        _ ≤ min a x := ih _
        _ ≤ a := min_le_left _ _

theorem foldl_min_le_mem (xs : List ℚ) :
    ∀ (a x : ℚ), x ∈ xs → xs.foldl min a ≤ x := by
  induction xs with
  | nil => intro a x hx; cases hx
  | cons y ys ih =>
      intro a x hx
      rcases List.mem_cons.mp hx with h | h
      · subst h
        calc (x :: ys).foldl min a = ys.foldl min (min a x) := by simp
          _ ≤ min a x := foldl_min_le_init _ _
          _ ≤ x := min_le_right _ _
      · simpa using ih (min a y) x h

theorem le_foldl_max_init (xs : List ℚ) : ∀ a : ℚ, a ≤ xs.foldl max a := by
  induction xs with
  | nil => intro a; simp
  | cons x xs ih =>
      intro a
      calc a ≤ max a x := le_max_left _ _
        _ ≤ xs.foldl max (max a x) := ih _
        _ = (x :: xs).foldl max a := by simp

theorem le_foldl_max_mem (xs : List ℚ) :
    ∀ (a x : ℚ), x ∈ xs → x ≤ xs.foldl max a := by
  induction xs with
  | nil => intro a x hx; cases hx
  | cons y ys ih =>
      intro a x hx
      rcases List.mem_cons.mp hx with h | h
      · subst h
        calc x ≤ max a x := le_max_right _ _
          _ ≤ ys.foldl max (max a x) := le_foldl_max_init _ _
          _ = (x :: ys).foldl max a := by simp
      · simpa using ih (max a y) x h

theorem listMin_le {l : List ℚ} {x : ℚ} (hx : x ∈ l) : listMin l ≤ x := by
  match l with
  | [] => cases hx
  | y :: ys =>
      rcases List.mem_cons.mp hx with h | h
      · subst h; exact foldl_min_le_init ys x
      · exact foldl_min_le_mem ys y x h

theorem le_listMax {l : List ℚ} {x : ℚ} (hx : x ∈ l) : x ≤ listMax l := by
  match l with
  | [] => cases hx
  | y :: ys =>
      rcases List.mem_cons.mp hx with h | h
      · subst h; exact le_foldl_max_init ys x
      · exact le_foldl_max_mem ys y x h

theorem listMin_le_listMax {l : List ℚ} (h : l ≠ []) : listMin l ≤ listMax l := by
  match l with
  | [] => exact absurd rfl h
  | y :: ys =>
      exact le_trans (listMin_le (List.mem_cons_self y ys))
        (le_listMax (List.mem_cons_self y ys))

-- The two `return {}` branches of `analyze_latency_patterns` collapse to "the
-- positive-latency filter is empty".
theorem analyze_eq_none_iff (rts : List ℚ) :
    analyze_latency_patterns rts = none ↔ rts.filter (fun t => 0 < t) = [] := by
  simp only [analyze_latency_patterns]
  split <;> simp_all

-- Explicit form of the analysis on a nonempty filtered list.
theorem analyze_eq_some (rts : List ℚ)
    (h : rts.filter (fun t => 0 < t) ≠ []) :
    analyze_latency_patterns rts =
      some
        { min_latency := listMin (rts.filter fun t => 0 < t)
          max_latency := listMax (rts.filter fun t => 0 < t)
          median_latency :=
            ((rts.filter fun t => 0 < t).insertionSort (· ≤ ·)).getD
              ((rts.filter fun t => 0 < t).length / 2) 0
          p95_latency :=
            ((rts.filter fun t => 0 < t).insertionSort (· ≤ ·)).getD
              (p95Index (rts.filter fun t => 0 < t).length) 0
          p99_latency :=
            ((rts.filter fun t => 0 < t).insertionSort (· ≤ ·)).getD
              (p99Index (rts.filter fun t => 0 < t).length) 0
          std_deviation_sq :=
            ((rts.filter fun t => 0 < t).map fun t =>
                (t - (rts.filter fun t => 0 < t).sum /
                    ((rts.filter fun t => 0 < t).length : ℚ)) ^ 2).sum /
              ((rts.filter fun t => 0 < t).length : ℚ)
          consistency_score :=
            1 - (listMax (rts.filter fun t => 0 < t) -
                  listMin (rts.filter fun t => 0 < t)) /
                (rts.filter fun t => 0 < t).sum *
                ((rts.filter fun t => 0 < t).length : ℚ) } := by
  simp only [analyze_latency_patterns, h, if_false]

-- The nearest-rank indices stay strictly below the list length.
theorem p95Index_lt {n : ℕ} (hn : 1 ≤ n) : p95Index n < n := by
  have h0 : (0 : ℚ) < (n : ℚ) := by exact_mod_cast hn
  have h : ((n : ℚ) * (95 / 100)) < (n : ℚ) := by nlinarith
  have h2 : ⌊(n : ℚ) * (95 / 100)⌋ < (n : ℤ) := Int.floor_lt.mpr (by exact_mod_cast h)
  simp only [p95Index]
  omega

theorem foldl_min_replicate (L : ℚ) : ∀ m, (List.replicate m L).foldl min L = L := by
  intro m
  induction m with
  | zero => rfl
  | succ m ih => simp [List.replicate_succ, min_self, ih]

theorem foldl_max_replicate (L : ℚ) : ∀ m, (List.replicate m L).foldl max L = L := by
  intro m
  induction m with
  | zero => rfl
  | succ m ih => simp [List.replicate_succ, max_self, ih]

theorem listMin_replicate {n : ℕ} (L : ℚ) (hn : 1 ≤ n) :
    listMin (List.replicate n L) = L := by
  match n, hn with
  | m + 1, _ => simp [List.replicate_succ, listMin, foldl_min_replicate]

theorem listMax_replicate {n : ℕ} (L : ℚ) (hn : 1 ≤ n) :
    listMax (List.replicate n L) = L := by
  match n, hn with
  | m + 1, _ => simp [List.replicate_succ, listMax, foldl_max_replicate]

theorem getD_replicate {n k : ℕ} (L : ℚ) (hk : k < n) :
    (List.replicate n L).getD k 0 = L := by
  rw [List.getD_eq_getElem _ _ (by simpa using hk)]
  exact List.getElem_replicate _ _

theorem insertionSort_replicate (n : ℕ) (L : ℚ) :
    (List.replicate n L).insertionSort (· ≤ ·) = List.replicate n L :=
  List.eq_of_perm_of_sorted (List.perm_insertionSort _ _)
    (List.sorted_insertionSort _ _)
    (List.pairwise_replicate.mpr (Or.inr le_rfl))

-- A responder that raises on every prompt: the success tally never moves, the
-- failure tally counts every prompt, and every measured elapsed time is
-- appended to `response_times`.
theorem processItems_raise (m : String → String) (e : ℕ → ℚ) (qs : List String) :
    ∀ (st : DemoState) (i : ℕ),
      ((processItems (fun q => .raise (m q)) e st qs i).1.successful_queries =
          st.successful_queries) ∧
      ((processItems (fun q => .raise (m q)) e st qs i).1.connectivity_issues =
          st.connectivity_issues + qs.length) ∧
      ((processItems (fun q => .raise (m q)) e st qs i).1.response_times =
          st.response_times ++ (List.range' st.clock qs.length).map e) ∧
      ((processItems (fun q => .raise (m q)) e st qs i).1.clock =
          st.clock + qs.length) := by
  induction qs with
  | nil => intro st i; simp [processItems]
  | cons q qs ih =>
      intro st i
      refine ⟨?_, ?_, ?_, ?_⟩ <;>
        simp [processItems, query_krishna_topic, ih, List.range'_succ] <;>
        omega

-- Chunk-size and clock-stream independence of everything but the latencies:
-- given equal tallies to start from, one sequential pass under two different
-- clock streams produces the same stripped results and the same final tallies.
theorem processItems_stripEq (responder : Responder) (e₁ e₂ : ℕ → ℚ)
    (qs : List String) :
    ∀ (st₁ st₂ : DemoState) (i : ℕ),
      st₁.successful_queries = st₂.successful_queries →
      st₁.connectivity_issues = st₂.connectivity_issues →
      ((processItems responder e₁ st₁ qs i).2.map stripLatency =
          (processItems responder e₂ st₂ qs i).2.map stripLatency) ∧
      ((processItems responder e₁ st₁ qs i).1.successful_queries =
          (processItems responder e₂ st₂ qs i).1.successful_queries) ∧
      ((processItems responder e₁ st₁ qs i).1.connectivity_issues =
          (processItems responder e₂ st₂ qs i).1.connectivity_issues) := by
  induction qs with
  | nil => intro st₁ st₂ i h1 h2; simp [processItems, h1, h2]
  | cons q qs ih =>
      intro st₁ st₂ i h1 h2
      cases hq : responder q <;>
        simp [processItems, query_krishna_topic, hq, stripLatency, h1, h2] <;>
        exact ih _ _ _ rfl rfl

theorem p99Index_lt {n : ℕ} (hn : 1 ≤ n) : p99Index n < n := by
  have h0 : (0 : ℚ) < (n : ℚ) := by exact_mod_cast hn
  have h : ((n : ℚ) * (99 / 100)) < (n : ℚ) := by nlinarith
  have h2 : ⌊(n : ℚ) * (99 / 100)⌋ < (n : ℤ) := Int.floor_lt.mpr (by exact_mod_cast h)
  simp only [p99Index]
  omega

/-- C1, counterexample: with a responder that raises ("boom") and a call whose
measured elapsed time is 5 ms, `query_krishna_topic` records the synthetic
response "Connection Error: boom" and the failure tally, but the recorded
latency is the measured 5 ms, not 0.0 as the claim states. -/
theorem query_raise_latency_not_zero :
    (query_krishna_topic (fun _ => .raise "boom") (fun _ => 5) initState "q" 1).2.1 =
      "Connection Error: boom" ∧
    (query_krishna_topic (fun _ => .raise "boom") (fun _ => 5) initState "q"
      1).1.connectivity_issues = 1 ∧
    (query_krishna_topic (fun _ => .raise "boom") (fun _ => 5) initState "q"
      1).1.successful_queries = 0 ∧
    (query_krishna_topic (fun _ => .raise "boom") (fun _ => 5) initState "q"
      1).1.response_times = [5] ∧
    (query_krishna_topic (fun _ => .raise "boom") (fun _ => 5) initState "q" 1).2.2 = 5 ∧
    (query_krishna_topic (fun _ => .raise "boom") (fun _ => 5) initState "q" 1).2.2 ≠ 0 := by
  refine ⟨?_, ?_, ?_, ?_, ?_, ?_⟩ <;>
    simp [query_krishna_topic, initState]

/-- C1, amended: for every prompt whose responder call raises, the demonstrator
records a result whose response text is the synthetic string
"Connection Error: " followed by the error description, counted in the failure
tally (`connectivity_issues`) and not in the success tally, and whose recorded
latency is the elapsed time measured around the failed call — not 0.0. -/
theorem query_raise_records_failure (responder : Responder) (e : ℕ → ℚ)
    (st : DemoState) (question : String) (i : ℕ) (msg : String)
    (h : responder question = .raise msg) :
    query_krishna_topic responder e st question i =
      ({ st with
          connectivity_issues := st.connectivity_issues + 1
          response_times := st.response_times ++ [e st.clock]
          total_tokens_estimated :=
            st.total_tokens_estimated +
              (tokenCount question + tokenCount ("Connection Error: " ++ msg))
          clock := st.clock + 1 },
        "Connection Error: " ++ msg, e st.clock) := by
  simp [query_krishna_topic, h]

/-- Witness for the amended C1 at a concrete raising responder with 7 ms
elapsed. -/
theorem query_raise_records_failure_witness :
    query_krishna_topic (fun _ => .raise "boom") (fun _ => 7) initState "q" 1 =
      ({ results := [], response_times := [7], connectivity_issues := 1,
         successful_queries := 0,
         total_tokens_estimated :=
           tokenCount "q" + tokenCount "Connection Error: boom",
         clock := 1 }, "Connection Error: boom", 7) := by
  simpa [initState] using
    query_raise_records_failure (fun _ => .raise "boom") (fun _ => 7) initState
      "q" 1 "boom" rfl

/-- C3: for every prompt sequence, every responder (raising, None-returning or
succeeding on any mix of items) and every clock stream, `run_queries_batch`
returns exactly one formatted result per submitted prompt; no item aborts the
run. -/
theorem run_queries_batch_length_eq (responder : Responder) (e : ℕ → ℚ)
    (st : DemoState) (qs : List String) (delay : ℚ) (batch_size : ℕ)
    (_hbs : 1 ≤ batch_size) :
    ((run_queries_batch responder e st qs delay batch_size).2).length = qs.length := by
  rw [run_queries_batch_eq_processItems]
  exact processItems_length responder e qs st 1

/-- Witness for C3: three prompts, one of which raises and one of which gets a
`None` response, still yield exactly three results. -/
theorem run_queries_batch_length_eq_witness :
    1 ≤ 2 ∧
    ((run_queries_batch
        (fun q => if q = "b" then .raise "x" else if q = "c" then .retNone else .ok "fine")
        (fun _ => 1) initState ["a", "b", "c"] 0 2).2).length = 3 :=
  ⟨by norm_num,
    run_queries_batch_length_eq
      (fun q => if q = "b" then .raise "x" else if q = "c" then .retNone else .ok "fine")
      (fun _ => 1) initState ["a", "b", "c"] 0 2 (by norm_num)⟩

/-- C4: for every prompt sequence of length n, the returned results carry the
ordinal indices 1..n exactly (consecutive, hence strictly increasing), and the
prompts appear in submission order, regardless of which items succeed or
fail. -/
theorem run_queries_batch_ordinals (responder : Responder) (e : ℕ → ℚ)
    (st : DemoState) (qs : List String) (delay : ℚ) (batch_size : ℕ)
    (_hbs : 1 ≤ batch_size) :
    ((run_queries_batch responder e st qs delay batch_size).2).map
        (fun fr => fr.question_number) = List.range' 1 qs.length ∧
    ((run_queries_batch responder e st qs delay batch_size).2).map
        (fun fr => fr.question) = qs := by
  rw [run_queries_batch_eq_processItems]
  exact processItems_numbers responder e qs st 1

/-- Witness for C4: a mixed success/failure run over two prompts carries
indices [1, 2] and the prompts in order. -/
theorem run_queries_batch_ordinals_witness :
    1 ≤ 3 ∧
    (((run_queries_batch (fun q => if q = "y" then .raise "x" else .ok "fine")
        (fun _ => 1) initState ["x", "y"] 0 3).2).map
          (fun fr => fr.question_number) = List.range' 1 (["x", "y"] : List String).length ∧
      ((run_queries_batch (fun q => if q = "y" then .raise "x" else .ok "fine")
        (fun _ => 1) initState ["x", "y"] 0 3).2).map
          (fun fr => fr.question) = ["x", "y"]) :=
  ⟨by norm_num,
    run_queries_batch_ordinals (fun q => if q = "y" then .raise "x" else .ok "fine")
      (fun _ => 1) initState ["x", "y"] 0 3 (by norm_num)⟩

/-- C5: for every prompt sequence and every deterministic responder, a run with
batch size 1 and a run with batch size `qs.length` (even under different clock
streams, so latencies may differ) return result sequences identical in count,
order, prompt, and response text — hence in success flag, which the response
text determines — and reach the same success and failure tallies; the chunking
parameter affects only progress reporting. -/
theorem run_queries_batch_chunk_independent (responder : Responder)
    (e₁ e₂ : ℕ → ℚ) (st : DemoState) (qs : List String) (d₁ d₂ : ℚ) :
    (((run_queries_batch responder e₁ st qs d₁ 1).2).map stripLatency =
        ((run_queries_batch responder e₂ st qs d₂ qs.length).2).map stripLatency) ∧
    ((run_queries_batch responder e₁ st qs d₁ 1).2).length =
        ((run_queries_batch responder e₂ st qs d₂ qs.length).2).length ∧
    (run_queries_batch responder e₁ st qs d₁ 1).1.successful_queries =
        (run_queries_batch responder e₂ st qs d₂ qs.length).1.successful_queries ∧
    (run_queries_batch responder e₁ st qs d₁ 1).1.connectivity_issues =
        (run_queries_batch responder e₂ st qs d₂ qs.length).1.connectivity_issues := by
  rw [run_queries_batch_eq_processItems, run_queries_batch_eq_processItems]
  obtain ⟨h1, h2, h3⟩ := processItems_stripEq responder e₁ e₂ qs st st 1 rfl rfl
  exact ⟨h1, by rw [processItems_length, processItems_length], h2, h3⟩

/-- C2, counterexample: a responder that raises on both of two prompts, with a
measured elapsed time of 5 ms per call, yields `successful == 0` and
`failed == 2` as the claim states, but the latency statistics are not at the
zero/absent sentinel: the analysis is computed over the two recorded 5 ms
elapsed times (minimum latency 5, not 0/absent). -/
theorem run_all_raise_stats_not_sentinel :
    (run_queries_batch (fun _ => .raise "boom") (fun _ => 5) initState
      ["a", "b"] 0 10).1.successful_queries = 0 ∧
    (run_queries_batch (fun _ => .raise "boom") (fun _ => 5) initState
      ["a", "b"] 0 10).1.connectivity_issues = 2 ∧
    analyze_latency_patterns
        (run_queries_batch (fun _ => .raise "boom") (fun _ => 5) initState
          ["a", "b"] 0 10).1.response_times =
      some { min_latency := 5, max_latency := 5, median_latency := 5,
             p95_latency := 5, p99_latency := 5, std_deviation_sq := 0,
             consistency_score := 1 } := by
  have hrt : (run_queries_batch (fun _ => .raise "boom") (fun _ => 5) initState
      ["a", "b"] 0 10).1.response_times = [5, 5] := by
    simp [run_queries_batch, chunks, runChunks, processItems, query_krishna_topic,
      initState]
  refine ⟨?_, ?_, ?_⟩
  · simp [run_queries_batch, chunks, runChunks, processItems, query_krishna_topic,
      initState]
  · simp [run_queries_batch, chunks, runChunks, processItems, query_krishna_topic,
      initState]
  · rw [hrt]
    norm_num [analyze_latency_patterns, listMin, listMax, List.insertionSort,
      List.orderedInsert, p95Index, p99Index]
    exact fun h => absurd h (List.cons_ne_nil _ _)

/-- C2, amended: for every run of n prompts in which the responder raises on
every prompt, the run summary has `successful == 0` and `failed == n`; the
latency statistics are computed over the measured elapsed times of the failed
calls (which are recorded into `response_times`), so they are at the
zero/absent sentinel precisely when every measured elapsed time of the run is
nonpositive — not in general. -/
theorem run_all_raise_summary (qs : List String) (m : String → String)
    (e : ℕ → ℚ) (delay : ℚ) (bs : ℕ) (_hbs : 1 ≤ bs) :
    (run_queries_batch (fun q => .raise (m q)) e initState qs delay
      bs).1.successful_queries = 0 ∧
    (run_queries_batch (fun q => .raise (m q)) e initState qs delay
      bs).1.connectivity_issues = qs.length ∧
    (analyze_latency_patterns
        (run_queries_batch (fun q => .raise (m q)) e initState qs delay
          bs).1.response_times = none ↔
      ∀ i < qs.length, e i ≤ 0) := by
  rw [run_queries_batch_eq_processItems]
  obtain ⟨h1, h2, h3, _⟩ := processItems_raise m e qs initState 1
  refine ⟨by simpa [initState] using h1, by simpa [initState] using h2, ?_⟩
  rw [h3, analyze_eq_none_iff, List.filter_eq_nil_iff]
  simp only [initState, List.nil_append, List.mem_map, List.mem_range'_1]
  constructor
  · intro h i hi
    have := h (e i) ⟨i, ⟨by omega, by omega⟩, rfl⟩
    simpa [not_lt] using this
  · rintro h x ⟨i, ⟨_, hi⟩, rfl⟩
    simpa [not_lt] using h i (by omega)

/-- Witness for the amended C2: two prompts, an always-raising responder, and a
clock stream reporting zero elapsed time; the tallies are 0 and 2 and the
statistics are at the sentinel precisely because every elapsed time is 0. -/
theorem run_all_raise_summary_witness :
    (run_queries_batch (fun _ => .raise "boom") (fun _ => 0) initState
      ["a", "b"] 0 1).1.successful_queries = 0 ∧
    (run_queries_batch (fun _ => .raise "boom") (fun _ => 0) initState
      ["a", "b"] 0 1).1.connectivity_issues = 2 ∧
    (analyze_latency_patterns
        (run_queries_batch (fun _ => .raise "boom") (fun _ => 0) initState
          ["a", "b"] 0 1).1.response_times = none ↔
      ∀ i < 2, (0 : ℚ) ≤ 0) :=
  run_all_raise_summary ["a", "b"] (fun _ => "boom") (fun _ => 0) 0 1
    (by norm_num)

/-- C6: on every nonempty filtered latency list, the analysis picks, from the
(unique) ascending-sorted rearrangement `s` of the filtered latencies, the
median at index `floor(n/2)` (the upper median for even n, not the
averaged-pair median), the p95 at index `floor(n * 0.95)` and the p99 at index
`floor(n * 0.99)`, with no interpolation. -/
theorem analyze_percentile_selection (rts : List ℚ) (s : List ℚ)
    (hne : rts.filter (fun t => 0 < t) ≠ [])
    (hperm : s.Perm (rts.filter fun t => 0 < t))
    (hsorted : s.Sorted (· ≤ ·)) :
    ∃ a, analyze_latency_patterns rts = some a ∧
      a.median_latency = s.getD (s.length / 2) 0 ∧
      a.p95_latency = s.getD (p95Index s.length) 0 ∧
      a.p99_latency = s.getD (p99Index s.length) 0 := by
  have hs : (rts.filter fun t => 0 < t).insertionSort (· ≤ ·) = s :=
    List.eq_of_perm_of_sorted ((List.perm_insertionSort _ _).trans hperm.symm)
      (List.sorted_insertionSort _ _) hsorted
  refine ⟨_, analyze_eq_some rts hne, ?_, ?_, ?_⟩ <;>
    rw [hs, ← hperm.length_eq]

/-- Witness for C6: latencies `[2, 1]` sort ascending to `[1, 2]`; the median
is the element at index `2/2 = 1` (the upper median), and p95/p99 pick index
`floor(2 * 0.95) = floor(2 * 0.99) = 1` as well. -/
theorem analyze_percentile_selection_witness :
    ∃ a, analyze_latency_patterns [2, 1] = some a ∧
      a.median_latency = [(1 : ℚ), 2].getD ([(1 : ℚ), 2].length / 2) 0 ∧
      a.p95_latency = [(1 : ℚ), 2].getD (p95Index [(1 : ℚ), 2].length) 0 ∧
      a.p99_latency = [(1 : ℚ), 2].getD (p99Index [(1 : ℚ), 2].length) 0 := by
  have hfil : ([2, 1] : List ℚ).filter (fun t => 0 < t) = [2, 1] := by norm_num
  exact analyze_percentile_selection [2, 1] [1, 2]
    (by rw [hfil]; exact List.cons_ne_nil _ _)
    (by rw [hfil]; exact List.Perm.swap 2 1 [])
    (by norm_num [List.sorted_cons])

/-- C7: if all n recorded latencies equal a single positive value L, every
positional statistic equals L, the population variance (sum of squared
deviations divided by n, not n-1) is 0, hence the reported standard deviation
is 0; the consistency score is 1. -/
theorem analyze_constant_latency (n : ℕ) (L : ℚ) (hn : 1 ≤ n) (hL : 0 < L) :
    analyze_latency_patterns (List.replicate n L) =
      some { min_latency := L, max_latency := L, median_latency := L,
             p95_latency := L, p99_latency := L, std_deviation_sq := 0,
             consistency_score := 1 } ∧
    LatencyAnalysis.std_deviation
      { min_latency := L, max_latency := L, median_latency := L,
        p95_latency := L, p99_latency := L, std_deviation_sq := 0,
        consistency_score := 1 } = 0 := by
  have hnq : ((n : ℚ)) ≠ 0 := by
    have : (0 : ℚ) < (n : ℚ) := by exact_mod_cast hn
    exact ne_of_gt this
  have hfilter : (List.replicate n L).filter (fun t => 0 < t) = List.replicate n L :=
    List.filter_eq_self.mpr fun a ha => by
      have h := List.eq_of_mem_replicate ha
      subst h
      simpa using hL
  have hne : (List.replicate n L).filter (fun t => 0 < t) ≠ [] := by
    rw [hfilter]
    intro h
    have := congrArg List.length h
    simp at this
    omega
  have hlen : (List.replicate n L).length = n := List.length_replicate _ _
  have hsum : (List.replicate n L).sum = (n : ℚ) * L := by
    simp [List.sum_replicate, nsmul_eq_mul]
  have hmean : (List.replicate n L).sum / (((List.replicate n L).length : ℕ) : ℚ) = L := by
    rw [hsum, hlen]
    field_simp
  constructor
  · rw [analyze_eq_some _ hne, hfilter]
    simp only [Option.some.injEq, LatencyAnalysis.mk.injEq]
    refine ⟨?_, ?_, ?_, ?_, ?_, ?_, ?_⟩
    · exact listMin_replicate L hn
    · exact listMax_replicate L hn
    · rw [insertionSort_replicate, hlen]
      exact getD_replicate L (Nat.div_lt_self (by omega) one_lt_two)
    · rw [insertionSort_replicate, hlen]
      exact getD_replicate L (p95Index_lt hn)
    · rw [insertionSort_replicate, hlen]
      exact getD_replicate L (p99Index_lt hn)
    · rw [hmean]
      simp [List.map_replicate, List.sum_replicate]
    · rw [listMin_replicate L hn, listMax_replicate L hn]
      simp
  · simp [LatencyAnalysis.std_deviation, Real.sqrt_zero]

/-- Witness for C7 at n = 3 latencies of 5 ms each. -/
theorem analyze_constant_latency_witness :
    analyze_latency_patterns (List.replicate 3 (5 : ℚ)) =
      some { min_latency := 5, max_latency := 5, median_latency := 5,
             p95_latency := 5, p99_latency := 5, std_deviation_sq := 0,
             consistency_score := 1 } ∧
    LatencyAnalysis.std_deviation
      { min_latency := 5, max_latency := 5, median_latency := 5,
        p95_latency := 5, p99_latency := 5, std_deviation_sq := 0,
        consistency_score := 1 } = 0 :=
  analyze_constant_latency 3 5 (by norm_num) (by norm_num)

/-- C9: the consistency score `1 - (max - min) / sum * n` over the strictly
positive filtered latencies never exceeds 1, and it can be negative for highly
variable data (e.g. latencies `[1, 10]` score `-7/11`). -/
theorem consistency_score_le_one :
    (∀ (rts : List ℚ) (a : LatencyAnalysis),
        analyze_latency_patterns rts = some a → a.consistency_score ≤ 1) ∧
    (∃ (rts : List ℚ) (a : LatencyAnalysis),
        analyze_latency_patterns rts = some a ∧ a.consistency_score < 0) := by
  constructor
  · intro rts a ha
    by_cases h : rts.filter (fun t => 0 < t) = []
    · rw [(analyze_eq_none_iff rts).mpr h] at ha
      cases ha
    · rw [analyze_eq_some rts h, Option.some.injEq] at ha
      have hpos : ∀ x ∈ rts.filter (fun t => 0 < t), 0 < x := fun x hx => by
        simpa using (List.mem_filter.mp hx).2
      have hsum : 0 < (rts.filter fun t => 0 < t).sum :=
        List.sum_pos _ hpos h
      have hminmax : listMin (rts.filter fun t => 0 < t) ≤
          listMax (rts.filter fun t => 0 < t) := listMin_le_listMax h
      have hnn : 0 ≤ (listMax (rts.filter fun t => 0 < t) -
            listMin (rts.filter fun t => 0 < t)) /
          (rts.filter fun t => 0 < t).sum *
          (((rts.filter fun t => 0 < t).length : ℕ) : ℚ) := by
        apply mul_nonneg
        · exact div_nonneg (sub_nonneg.mpr hminmax) hsum.le
        · positivity
      rw [← ha]
      simp only
      linarith
  · have h : analyze_latency_patterns [1, 10] =
        some ⟨1, 10, 10, 10, 10, 81 / 4, -(7 / 11)⟩ := by
      norm_num [analyze_latency_patterns, listMin, listMax, List.insertionSort,
        List.orderedInsert, p95Index, p99Index]
      exact fun h => absurd h (List.cons_ne_nil _ _)
    exact ⟨[1, 10], _, h, by norm_num⟩

/-- Witness for C9 at the concrete analysis of `[1, 10]`. -/
theorem consistency_score_le_one_witness :
    (-(7 / 11) : ℚ) ≤ 1 := by
  have h : analyze_latency_patterns [1, 10] =
      some { min_latency := 1, max_latency := 10, median_latency := 10,
             p95_latency := 10, p99_latency := 10, std_deviation_sq := 81 / 4,
             consistency_score := -(7 / 11) } := by
    norm_num [analyze_latency_patterns, listMin, listMax, List.insertionSort,
      List.orderedInsert, p95Index, p99Index]
    exact fun h => absurd h (List.cons_ne_nil _ _)
  exact consistency_score_le_one.1 [1, 10] _ h

/-- C10: `analyze_latency_patterns` is total — an empty or all-nonpositive
input yields the empty result with no error; whenever it returns an analysis,
the filtered list is nonempty, the three sorted-index accesses
(`floor(n/2)`, `floor(n * 0.95)`, `floor(n * 0.99)`) are strictly in bounds,
and the divisors (`n` and `sum(times)`, every filtered latency being strictly
positive) are nonzero. -/
theorem analyze_total_safety (rts : List ℚ) :
    (rts.filter (fun t => 0 < t) = [] → analyze_latency_patterns rts = none) ∧
    (∀ a, analyze_latency_patterns rts = some a →
      0 < (rts.filter fun t => 0 < t).length ∧
      (rts.filter fun t => 0 < t).length / 2 < (rts.filter fun t => 0 < t).length ∧
      p95Index (rts.filter fun t => 0 < t).length <
        (rts.filter fun t => 0 < t).length ∧
      p99Index (rts.filter fun t => 0 < t).length <
        (rts.filter fun t => 0 < t).length ∧
      0 < (rts.filter fun t => 0 < t).sum) := by
  constructor
  · exact (analyze_eq_none_iff rts).mpr
  · intro a ha
    have h : rts.filter (fun t => 0 < t) ≠ [] := by
      intro h
      rw [(analyze_eq_none_iff rts).mpr h] at ha
      cases ha
    have hlen : 0 < (rts.filter fun t => 0 < t).length := List.length_pos.mpr h
    refine ⟨hlen, Nat.div_lt_self hlen one_lt_two, p95Index_lt hlen,
      p99Index_lt hlen, ?_⟩
    exact List.sum_pos _ (fun x hx => by simpa using (List.mem_filter.mp hx).2) h

/-- Witness for C10: the empty input yields `none`; the singleton input `[5]`
yields an analysis whose index accesses and divisors are all in range. -/
theorem analyze_total_safety_witness :
    analyze_latency_patterns ([] : List ℚ) = none ∧
    (0 < (([5] : List ℚ).filter fun t => 0 < t).length ∧
      (([5] : List ℚ).filter fun t => 0 < t).length / 2 <
        (([5] : List ℚ).filter fun t => 0 < t).length ∧
      p95Index (([5] : List ℚ).filter fun t => 0 < t).length <
        (([5] : List ℚ).filter fun t => 0 < t).length ∧
      p99Index (([5] : List ℚ).filter fun t => 0 < t).length <
        (([5] : List ℚ).filter fun t => 0 < t).length ∧
      0 < (([5] : List ℚ).filter fun t => 0 < t).sum) := by
  constructor
  · exact (analyze_total_safety []).1 rfl
  · refine (analyze_total_safety [5]).2
      { min_latency := 5, max_latency := 5, median_latency := 5,
        p95_latency := 5, p99_latency := 5, std_deviation_sq := 0,
        consistency_score := 1 } ?_
    norm_num [analyze_latency_patterns, listMin, listMax, List.insertionSort,
      List.orderedInsert, p95Index, p99Index]

end KrishnaDemo

namespace CloudflareWorker

/-- C8: for every model input and every network outcome (transport error,
JSON-decode error, non-dict body, missing or ill-shaped "result" field,
unexpected format), `CloudflareWorker._send_request` — and hence
`CloudflareWorker.query` — returns normally to its caller; whenever the try
body raises, the catch-all handler turns the outcome into a returned `None`. -/
theorem send_request_never_raises (net : NetOutcome) :
    (∃ r, _send_request net = Except.ok r) ∧
    (∃ r, query net = Except.ok r) ∧
    (∀ e, sendRequestBody net = Except.error e →
      _send_request net = Except.ok none ∧ query net = Except.ok none) := by
  refine ⟨?_, ?_, ?_⟩
  · cases h : sendRequestBody net with
    | ok r => exact ⟨some r, by simp [_send_request, h]⟩
    | error e => exact ⟨none, by simp [_send_request, h]⟩
  · cases h : sendRequestBody net with
    | ok r => exact ⟨some r, by simp [query, _send_request, h]⟩
    | error e => exact ⟨none, by simp [query, _send_request, h]⟩
  · intro e he
    constructor <;> simp [query, _send_request, he]

/-- Witness for C8 at a concrete transport failure. -/
theorem send_request_never_raises_witness :
    _send_request (NetOutcome.raises "connection reset") = Except.ok none ∧
    query (NetOutcome.raises "connection reset") = Except.ok none :=
  (send_request_never_raises (NetOutcome.raises "connection reset")).2.2
    "connection reset" rfl

end CloudflareWorker
